import Mathlib

/-!
Verification of the LuxeMatch fashion-recommendation pipeline (`src/App.tsx`
and the shared type declarations) against its natural-language specification.

The embedding below translates the data model (`Product`, `OutfitSelection`,
`RecommendationIds`), the slot resolver (`getProduct`), the inventory context
serializer, and the state transitions of the `App` component (`handleStyleMe`,
the button / Enter-key event handlers) into Lean definitions, and proves or
refutes the specified properties about them.
-/

namespace LuxeMatch

/-- A catalog product, as declared in the shared `Product` interface:
identity `ProductID`, descriptive attributes, `Price` and `NumImages`. -/
structure Product where
  ProductID : String
  ProductName : String
  ProductBrand : String
  Gender : String
  Price : Int
  NumImages : Nat
  Description : String
  PrimaryColor : String
deriving Repr, DecidableEq

/-- The four-slot outfit, as declared in the shared `OutfitSelection`
interface: each slot holds a `Product` or the absent marker (`null` /
`undefined` in the source, `none` here). -/
structure OutfitSelection where
  top : Option Product
  bottom : Option Product
  footwear : Option Product
  accessory : Option Product
deriving Repr, DecidableEq

/-- The model's raw structured answer, as declared in the
`RecommendationIds` interface in `App.tsx`. -/
structure RecommendationIds where
  top_id : String
  bottom_id : String
  footwear_id : String
  accessory_id : String
  style_tags : List String
  color_palette : List String
  reasoning : String
  occasion_title : String
deriving Repr, DecidableEq

/-- JavaScript `String(x)` applied to a value that is already a string:
the identity coercion.  `getProduct` applies it to its string argument. -/
def strCoerce (s : String) : String := s

/-- The slot resolver `getProduct` from `App.tsx`:

    if (id === 'NONE') return undefined;
    return products.find(p => p.ProductID === id || p.ProductID === String(id));

The catalog `products` is imported from `./data` (not part of the analysed
sources); following the spec's data model it is an ordered sequence of
`Product`, so it is taken here as an explicit list parameter. -/
def getProduct (products : List Product) (id : String) : Option Product :=
  if id = "NONE" then none
  else products.find? (fun p => p.ProductID == id || p.ProductID == strCoerce id)

/-- Resolution of the four slots as performed by the result grid in
`App.tsx` (lines 188-191): each of the four identifier fields is passed
independently through `getProduct`. -/
def resolveOutfit (products : List Product) (r : RecommendationIds) : OutfitSelection :=
  { top := getProduct products r.top_id
    bottom := getProduct products r.bottom_id
    footwear := getProduct products r.footwear_id
    accessory := getProduct products r.accessory_id }

/-- One line of the serialized inventory context, from `App.tsx`:

    `ID: ${p.ProductID}, Name: ${p.ProductName}, Brand: ${p.ProductBrand},
     Color: ${p.PrimaryColor}, Desc: ${p.Description}` -/
def productLine (p : Product) : String :=
  "ID: " ++ p.ProductID ++ ", Name: " ++ p.ProductName ++ ", Brand: " ++
    p.ProductBrand ++ ", Color: " ++ p.PrimaryColor ++ ", Desc: " ++ p.Description

/-- The serialized inventory context from `App.tsx`:
`products.map(p => ...).join('\n')`. -/
def inventoryContext (products : List Product) : String :=
  String.intercalate "\n" (products.map productLine)

/-- Uniqueness of catalog identifiers, the Catalog invariant of the spec
(section 3): the list of `ProductID`s has no duplicates. -/
def uniqueIDs (products : List Product) : Prop :=
  (products.map Product.ProductID).Nodup

instance (products : List Product) : Decidable (uniqueIDs products) := by
  unfold uniqueIDs; infer_instance

/-- Sample top product, identifier `"A1"`. -/
def pTopA1 : Product := ⟨"A1", "Silk Blouse", "Ritu", "Women", 2499, 4, "An ivory silk blouse", "Ivory"⟩

/-- Sample bottom product, identifier `"B2"`. -/
def pBotB2 : Product := ⟨"B2", "Wide Trousers", "Marks", "Women", 1899, 3, "High-waist trousers", "Black"⟩

/-- Sample footwear product, identifier `"C3"`. -/
def pShoeC3 : Product := ⟨"C3", "Leather Loafers", "Clarks", "Women", 3499, 5, "Tan loafers", "Tan"⟩

/-- Sample accessory product, identifier `"D4"`. -/
def pAccD4 : Product := ⟨"D4", "Gold Watch", "Titan", "Women", 5999, 2, "A slim gold watch", "Gold"⟩

/-- A product whose identifier is the sentinel string `"NONE"` itself. -/
def pNone : Product := ⟨"NONE", "Black Jumpsuit", "Zara", "Women", 2999, 3, "A tailored jumpsuit", "Black"⟩

/-- A product whose identifier is the lowercase string `"none"`. -/
def pLower : Product := ⟨"none", "Knit Leggings", "HM", "Women", 999, 2, "Soft knit leggings", "Grey"⟩

/-- A JSON value, the result of a successful `JSON.parse`. -/
inductive Json where
  | null
  | bool (b : Bool)
  | num (n : Int)
  | str (s : String)
  | arr (elems : List Json)
  | obj (fields : List (String × Json))
deriving Repr

/-- Whether a JSON value is a string. -/
def isStr : Json → Bool
  | .str _ => true
  | _ => false

/-- Whether a JSON value is an array of strings. -/
def isStrArr : Json → Bool
  | .arr elems => elems.all isStr
  | _ => false

/-- Whether an object field named `k` is present and passes `check`. -/
def fieldIs (fields : List (String × Json)) (k : String) (check : Json → Bool) : Bool :=
  match fields.lookup k with
  | some j => check j
  | none => false

/-- Modelled from the spec: the Response Validator of section 4.3 is absent
from the source — `App.tsx` casts the parsed JSON (`as RecommendationIds`)
without any shape check — so the schema the spec demands is formalized here
from its words: an object with the eight `RawRecommendation` fields, the
four identifiers and the two free-text fields strings, `style_tags` and
`color_palette` lists of strings. -/
def matchesSchema : Json → Bool
  | .obj fields =>
      fieldIs fields "top_id" isStr && fieldIs fields "bottom_id" isStr &&
      fieldIs fields "footwear_id" isStr && fieldIs fields "accessory_id" isStr &&
      fieldIs fields "style_tags" isStrArr && fieldIs fields "color_palette" isStrArr &&
      fieldIs fields "reasoning" isStr && fieldIs fields "occasion_title" isStr
  | _ => false

/-- Model of JavaScript `String.prototype.trim`, used by the guard
`if (!query.trim()) return;`: strip leading and trailing whitespace. -/
def jsTrim (s : String) : String :=
  ⟨((s.data.dropWhile Char.isWhitespace).reverse.dropWhile Char.isWhitespace).reverse⟩

/-- The outcome of the single awaited `generateContent` call, as observed by
`handleStyleMe`:
* `thrown` — the call threw (capability unreachable, rate-limited, SDK error);
* `emptyText` — the call returned but `response.text` is absent or empty
  (falsy), so the `if (response.text)` block is skipped;
* `text parsed` — the call returned non-empty text, and `parsed` is the
  result of `JSON.parse` on it (`none` when parsing throws). -/
inductive GenOutcome where
  | thrown
  | emptyText
  | text (parsed : Option Json)

/-- The `App` component state: the four `useState` hooks of `App.tsx`
(`query`, `loading`, `recommendation`, `error`) plus `pending`, the number of
`generateContent` network requests currently outstanding.  The stored
recommendation is the raw parsed JSON value, because the source's
`as RecommendationIds` cast performs no runtime conversion. -/
structure AppState where
  query : String
  loading : Bool
  recommendation : Option Json
  error : Option String
  pending : Nat
deriving Repr

/-- The initial component state: all hooks start empty. -/
def initialState : AppState :=
  { query := "", loading := false, recommendation := none, error := none, pending := 0 }

/-- The user-facing failure message set in the `catch` block of
`handleStyleMe`. -/
def aiErrorMessage : String :=
  "Our stylists are currently busy (AI Error). Please try again."

/-- The synchronous prefix of `handleStyleMe`: the blank-query guard
`if (!query.trim()) return;` followed, when the guard passes, by
`setLoading(true); setError(null); setRecommendation(null);` and the issue of
one `generateContent` request (`pending` grows by one). -/
def handleStyleMeStart (s : AppState) : AppState :=
  if jsTrim s.query = "" then s
  else { s with loading := true, error := none, recommendation := none,
                pending := s.pending + 1 }

/-- The continuation of `handleStyleMe` once its awaited request completes
(`pending` shrinks by one):
* a thrown call or a `JSON.parse` failure lands in `catch`, which sets the
  error message;
* a response with falsy `text` skips the `if (response.text)` block, setting
  nothing;
* a successfully parsed value `j` is stored via `setRecommendation(data)`
  with no shape validation;
in every case `finally` runs `setLoading(false)`. -/
def handleStyleMeFinish (s : AppState) (o : GenOutcome) : AppState :=
  match o with
  | .thrown =>
      { s with error := some aiErrorMessage, loading := false, pending := s.pending - 1 }
  | .emptyText =>
      { s with loading := false, pending := s.pending - 1 }
  | .text none =>
      { s with error := some aiErrorMessage, loading := false, pending := s.pending - 1 }
  | .text (some j) =>
      { s with recommendation := some j, loading := false, pending := s.pending - 1 }

/-- One complete invocation of `handleStyleMe` run without interleaving:
the guard, then the synchronous prefix, then the continuation on the
request's outcome `o`. -/
def runInvocation (s : AppState) (o : GenOutcome) : AppState :=
  if jsTrim s.query = "" then s else handleStyleMeFinish (handleStyleMeStart s) o

/-- The user-interface events of `App.tsx` that touch the pipeline state. -/
inductive Event where
  | setQuery (q : String)
  | clickStyleMe
  | pressEnter
  | complete (o : GenOutcome)

/-- The component's reaction to one event:
* typing stores the new query (`onChange`);
* the Style-Me button (`onClick={handleStyleMe}`) is rendered with
  `disabled={loading || !query}`, so a click reaches `handleStyleMe` only
  when not loading and the query string is non-empty;
* the Enter key (`onKeyDown={(e) => e.key === 'Enter' && handleStyleMe()}`)
  invokes `handleStyleMe` unconditionally;
* a completion of one outstanding request runs the continuation. -/
def stepEvent (s : AppState) : Event → AppState
  | .setQuery q => { s with query := q }
  | .clickStyleMe => if s.loading = true ∨ s.query = "" then s else handleStyleMeStart s
  | .pressEnter => handleStyleMeStart s
  | .complete o => if s.pending = 0 then s else handleStyleMeFinish s o

/-- A parsed response whose `style_tags` field is a single string instead of
a list of strings — structurally outside the RawRecommendation schema. -/
def badStyleTags : Json :=
  .obj [("top_id", .str "A1"), ("bottom_id", .str "NONE"),
        ("footwear_id", .str "C3"), ("accessory_id", .str "D4"),
        ("style_tags", .str "chic"), ("color_palette", .arr [.str "black"]),
        ("reasoning", .str "x"), ("occasion_title", .str "Y")]

/-- The initial state with the query `"garden party"` typed in. -/
def stateGarden : AppState := { initialState with query := "garden party" }

/-- The initial state with the query `"party"` typed in. -/
def stateParty : AppState := { initialState with query := "party" }

/-- The initial state with the query `"party night"` typed in. -/
def statePartyNight : AppState := { initialState with query := "party night" }

/-- The initial state with the query `"gala"` typed in. -/
def stateGala : AppState := { initialState with query := "gala" }

/-- The initial state with the query `"brunch"` typed in. -/
def stateBrunch : AppState := { initialState with query := "brunch" }

/-- The initial state with a three-space whitespace-only query. -/
def stateBlank3 : AppState := { initialState with query := "   " }

/-- The initial state with a one-space whitespace-only query. -/
def stateBlank1 : AppState := { initialState with query := " " }

/-- A state with one request outstanding: query `"gala"`, busy flag set. -/
def busyState : AppState :=
  { query := "gala", loading := true, recommendation := none, error := none,
    pending := 1 }

/-- An interleaved trace of the event model: type a query, press Enter twice
(the second press starts a second invocation while the first request is
still outstanding, since the Enter handler is not gated by the busy flag),
then the first request completes with a parsed value and the second request
throws. -/
def interleavedTrace : AppState :=
  stepEvent (stepEvent (stepEvent (stepEvent (stepEvent initialState
    (.setQuery "rooftop dinner")) .pressEnter) .pressEnter)
    (.complete (.text (some Json.null)))) (.complete .thrown)

/-- If `p` is in the catalog and identifiers are unique, the `find?` inside
`getProduct` locates exactly `p` when queried with `p.ProductID`. -/
theorem find_eq_of_mem_unique (products : List Product) (p : Product)
    (hu : uniqueIDs products) (hmem : p ∈ products) :
    products.find? (fun q => q.ProductID == p.ProductID ||
      q.ProductID == strCoerce p.ProductID) = some p := by
  induction products with
  | nil => cases hmem
  | cons q t ih =>
      simp only [uniqueIDs, List.map_cons, List.nodup_cons, List.mem_map] at hu
      rcases List.mem_cons.mp hmem with h | h
      · subst h
        simp [List.find?_cons, strCoerce]
      · have hne : q.ProductID ≠ p.ProductID := by
          intro heq
          exact hu.1 ⟨p, h, heq.symm⟩
        have : (fun r => r.ProductID == p.ProductID ||
            r.ProductID == strCoerce p.ProductID) q = false := by
          simp [strCoerce, hne]
        rw [List.find?_cons_of_neg _ (by simp [this])]
        exact ih hu.2 h

/-- If no product in the catalog carries identifier `id`, the `find?` inside
`getProduct` fails. -/
theorem find_eq_none_of_not_mem (products : List Product) (id : String)
    (habs : ∀ p ∈ products, p.ProductID ≠ id) :
    products.find? (fun q => q.ProductID == id || q.ProductID == strCoerce id) = none := by
  induction products with
  | nil => rfl
  | cons q t ih =>
      have hq : q.ProductID ≠ id := habs q (List.mem_cons_self q t)
      rw [List.find?_cons_of_neg _ (by simp [strCoerce, hq])]
      exact ih (fun p hp => habs p (List.mem_cons_of_mem q hp))

/-- C1 counterexample: a catalog with unique identifiers containing a product
whose `ProductID` is `"NONE"`; resolving that product's own identifier does
not yield the product (the sentinel short-circuit fires first), refuting the
claim's universal statement. -/
theorem c1_counterexample :
    uniqueIDs [pNone] ∧ pNone ∈ [pNone] ∧
      getProduct [pNone] pNone.ProductID ≠ some pNone := by decide

/-- C1 (amended): identifier resolution is a pure, deterministic function of
the identifier and the Catalog: for every Catalog whose ProductIDs are unique
and every Product `p` in it whose identifier is not the reserved sentinel
`"NONE"`, resolving `p.ProductID` yields exactly `p`; and resolving any
string that equals no ProductID in the Catalog yields the absent marker. -/
theorem c1_resolution_pure_amended (products : List Product) (p : Product)
    (hu : uniqueIDs products) (hmem : p ∈ products) (hne : p.ProductID ≠ "NONE") :
    getProduct products p.ProductID = some p ∧
      ∀ id : String, (∀ q ∈ products, q.ProductID ≠ id) →
        getProduct products id = none := by
  constructor
  · unfold getProduct
    rw [if_neg hne]
    exact find_eq_of_mem_unique products p hu hmem
  · intro id habs
    unfold getProduct
    by_cases hid : id = "NONE"
    · rw [if_pos hid]
    · rw [if_neg hid]
      exact find_eq_none_of_not_mem products id habs

/-- C1 witness: the amended theorem applied to the one-product catalog
`[pTopA1]` at identifier `"A1"`. -/
theorem c1_witness :
    uniqueIDs [pTopA1] ∧ pTopA1 ∈ [pTopA1] ∧ pTopA1.ProductID ≠ "NONE" ∧
      (getProduct [pTopA1] pTopA1.ProductID = some pTopA1 ∧
        ∀ id : String, (∀ q ∈ [pTopA1], q.ProductID ≠ id) →
          getProduct [pTopA1] id = none) :=
  ⟨by decide, by decide, by decide,
    c1_resolution_pure_amended [pTopA1] pTopA1 (by decide) (by decide) (by decide)⟩

/-- C2 counterexample: the sentinel comparison in `getProduct` is
case-sensitive (`id === 'NONE'`), so the lowercase variant `"none"` is an
ordinary identifier: on a catalog containing a product whose `ProductID` is
`"none"`, a `bottom_id` of `"none"` resolves to that product, not to the
absent marker. -/
theorem c2_counterexample :
    (resolveOutfit [pLower]
      ⟨"A1", "none", "C3", "D4", ["chic"], ["black"], "x", "Y"⟩).bottom =
        some pLower := by decide

/-- C2 (amended): only the exact string `"NONE"` is treated as the sentinel:
a `bottom_id` of `"NONE"` resolves the bottom slot to the absent marker on
every catalog, while the other casings (`"none"`, `"NoNe"`, `"None"`) are
ordinary identifiers that yield the absent marker only when no catalog
product carries them; in every such case the absent slot is the same value
(`none`) a failed lookup produces, hence indistinguishable downstream. -/
theorem c2_sentinel_amended (products : List Product) (r : RecommendationIds)
    (hb : r.bottom_id = "NONE") :
    (resolveOutfit products r).bottom = none ∧
      ∀ v, v ∈ (["none", "NoNe", "None"] : List String) →
        (∀ q ∈ products, q.ProductID ≠ v) → getProduct products v = none := by
  constructor
  · show getProduct products r.bottom_id = none
    rw [hb]
    unfold getProduct
    rw [if_pos rfl]
  · intro v _ habs
    unfold getProduct
    by_cases hv : v = "NONE"
    · rw [if_pos hv]
    · rw [if_neg hv]
      exact find_eq_none_of_not_mem products v habs

/-- C2 witness: the amended theorem applied to the catalog `[pTopA1]` and a
recommendation whose `bottom_id` is `"NONE"`, with each casing variant
checked concretely. -/
theorem c2_witness :
    (⟨"A1", "NONE", "C3", "D4", ["chic"], ["black"], "x", "Y"⟩ :
        RecommendationIds).bottom_id = "NONE" ∧
      ((resolveOutfit [pTopA1]
          ⟨"A1", "NONE", "C3", "D4", ["chic"], ["black"], "x", "Y"⟩).bottom = none ∧
        ∀ v, v ∈ (["none", "NoNe", "None"] : List String) →
          (∀ q ∈ [pTopA1], q.ProductID ≠ v) → getProduct [pTopA1] v = none) :=
  ⟨rfl, c2_sentinel_amended [pTopA1]
    ⟨"A1", "NONE", "C3", "D4", ["chic"], ["black"], "x", "Y"⟩ rfl⟩

/-- C9: the sentinel check sits at the top of `getProduct`, which is applied
identically to all four identifier fields: whenever any of the four fields is
exactly `"NONE"`, the corresponding slot is absent — on every catalog,
including catalogs that contain a product whose `ProductID` is `"NONE"`, so
the catalog is never consulted for the sentinel. -/
theorem c9_sentinel_uniform (products : List Product) (r : RecommendationIds) :
    (r.top_id = "NONE" → (resolveOutfit products r).top = none) ∧
      (r.bottom_id = "NONE" → (resolveOutfit products r).bottom = none) ∧
      (r.footwear_id = "NONE" → (resolveOutfit products r).footwear = none) ∧
      (r.accessory_id = "NONE" → (resolveOutfit products r).accessory = none) := by
  refine ⟨fun h => ?_, fun h => ?_, fun h => ?_, fun h => ?_⟩ <;>
    simp [resolveOutfit, getProduct, h]

/-- C9 witness: on the catalog `[pNone]`, which contains a product whose
identifier is literally `"NONE"`, a recommendation naming `"NONE"` in all
four fields still resolves every slot to the absent marker. -/
theorem c9_witness :
    pNone ∈ [pNone] ∧ pNone.ProductID = "NONE" ∧
      ((resolveOutfit [pNone] ⟨"NONE", "NONE", "NONE", "NONE", [], [], "r", "t"⟩).top = none ∧
        (resolveOutfit [pNone] ⟨"NONE", "NONE", "NONE", "NONE", [], [], "r", "t"⟩).bottom = none ∧
        (resolveOutfit [pNone] ⟨"NONE", "NONE", "NONE", "NONE", [], [], "r", "t"⟩).footwear = none ∧
        (resolveOutfit [pNone] ⟨"NONE", "NONE", "NONE", "NONE", [], [], "r", "t"⟩).accessory = none) :=
  have h := c9_sentinel_uniform [pNone] ⟨"NONE", "NONE", "NONE", "NONE", [], [], "r", "t"⟩
  ⟨by decide, rfl, h.1 rfl, h.2.1 rfl, h.2.2.1 rfl, h.2.2.2 rfl⟩

/-- C4 counterexample: on a catalog `[pNone, pShoeC3, pAccD4]` (unique
identifiers, one of which is `"NONE"`), a response whose `top_id` matches
nothing and whose `bottom_id` is `"NONE"` — which matches the catalog entry
`pNone` — leaves the bottom slot absent rather than populated with its
matched product, refuting the claim as universally stated. -/
theorem c4_counterexample :
    uniqueIDs [pNone, pShoeC3, pAccD4] ∧
      (∀ q ∈ [pNone, pShoeC3, pAccD4], q.ProductID ≠
        (⟨"ZZZ", "NONE", "C3", "D4", ["chic"], ["black"], "x", "Y"⟩ :
          RecommendationIds).top_id) ∧
      pNone ∈ [pNone, pShoeC3, pAccD4] ∧
      pNone.ProductID =
        (⟨"ZZZ", "NONE", "C3", "D4", ["chic"], ["black"], "x", "Y"⟩ :
          RecommendationIds).bottom_id ∧
      (resolveOutfit [pNone, pShoeC3, pAccD4]
        ⟨"ZZZ", "NONE", "C3", "D4", ["chic"], ["black"], "x", "Y"⟩).bottom ≠
          some pNone := by decide

/-- C4 (amended): on a catalog with unique identifiers, when `top_id`
matches no catalog entry while `bottom_id`, `footwear_id` and `accessory_id`
each match a catalog entry and none of the three equals the reserved
sentinel `"NONE"`, the resolved outfit has the top slot absent and the other
three slots populated with their matched products; resolution is total, so
the unresolvable `top_id` neither alters the other slots nor aborts. -/
theorem c4_partial_failure_amended (products : List Product)
    (r : RecommendationIds) (pb pf pa : Product) (hu : uniqueIDs products)
    (htop : ∀ q ∈ products, q.ProductID ≠ r.top_id)
    (hbmem : pb ∈ products) (hbid : pb.ProductID = r.bottom_id)
    (hbne : r.bottom_id ≠ "NONE")
    (hfmem : pf ∈ products) (hfid : pf.ProductID = r.footwear_id)
    (hfne : r.footwear_id ≠ "NONE")
    (hamem : pa ∈ products) (haid : pa.ProductID = r.accessory_id)
    (hane : r.accessory_id ≠ "NONE") :
    resolveOutfit products r =
      { top := none, bottom := some pb, footwear := some pf,
        accessory := some pa } := by
  have hslot : ∀ (p : Product) (id : String), p ∈ products → p.ProductID = id →
      id ≠ "NONE" → getProduct products id = some p := by
    intro p id hmem hid hne
    unfold getProduct
    rw [if_neg hne]
    rw [← hid]
    exact find_eq_of_mem_unique products p hu hmem
  have htopn : getProduct products r.top_id = none := by
    unfold getProduct
    by_cases ht : r.top_id = "NONE"
    · rw [if_pos ht]
    · rw [if_neg ht]
      exact find_eq_none_of_not_mem products r.top_id htop
  show ({ top := _, bottom := _, footwear := _, accessory := _ } :
    OutfitSelection) = _
  rw [htopn, hslot pb r.bottom_id hbmem hbid hbne,
    hslot pf r.footwear_id hfmem hfid hfne,
    hslot pa r.accessory_id hamem haid hane]

/-- C4 witness: the amended theorem applied to the catalog
`[pBotB2, pShoeC3, pAccD4]` and a response whose `top_id` `"ZZZ"` matches
nothing while the other three identifiers match. -/
theorem c4_witness :
    uniqueIDs [pBotB2, pShoeC3, pAccD4] ∧
      resolveOutfit [pBotB2, pShoeC3, pAccD4]
        ⟨"ZZZ", "B2", "C3", "D4", ["chic"], ["black"], "x", "Y"⟩ =
          { top := none, bottom := some pBotB2, footwear := some pShoeC3,
            accessory := some pAccD4 } :=
  ⟨by decide,
    c4_partial_failure_amended [pBotB2, pShoeC3, pAccD4]
      ⟨"ZZZ", "B2", "C3", "D4", ["chic"], ["black"], "x", "Y"⟩
      pBotB2 pShoeC3 pAccD4 (by decide) (by decide)
      (by decide) (by decide) (by decide)
      (by decide) (by decide) (by decide)
      (by decide) (by decide) (by decide)⟩

/-- C8: the serialized inventory context is the `"\n"`-join of exactly one
line per product, in catalog order; each line carries the identifier, name,
brand, color and description as contiguous substrings; the line of a product
is unchanged by its `Price` and `NumImages` (those fields are omitted); the
empty catalog serializes to the empty string; serialization is a total
function, so it has no error conditions. -/
theorem c8_inventory_serialization (products : List Product) :
    inventoryContext products =
        String.intercalate "\n" (products.map productLine) ∧
      (products.map productLine).length = products.length ∧
      inventoryContext [] = "" ∧
      (∀ p ∈ products,
        (∃ a b, productLine p = a ++ (p.ProductID ++ b)) ∧
          (∃ a b, productLine p = a ++ (p.ProductName ++ b)) ∧
          (∃ a b, productLine p = a ++ (p.ProductBrand ++ b)) ∧
          (∃ a b, productLine p = a ++ (p.PrimaryColor ++ b)) ∧
          (∃ a b, productLine p = a ++ (p.Description ++ b))) ∧
      (∀ p price imgs,
        productLine { p with Price := price, NumImages := imgs } =
          productLine p) := by
  refine ⟨rfl, products.length_map productLine, rfl, ?_, fun p price imgs => rfl⟩
  intro p _
  refine ⟨⟨"ID: ", ", Name: " ++ p.ProductName ++ ", Brand: " ++ p.ProductBrand ++
      ", Color: " ++ p.PrimaryColor ++ ", Desc: " ++ p.Description, ?_⟩,
    ⟨"ID: " ++ p.ProductID ++ ", Name: ", ", Brand: " ++ p.ProductBrand ++
      ", Color: " ++ p.PrimaryColor ++ ", Desc: " ++ p.Description, ?_⟩,
    ⟨"ID: " ++ p.ProductID ++ ", Name: " ++ p.ProductName ++ ", Brand: ",
      ", Color: " ++ p.PrimaryColor ++ ", Desc: " ++ p.Description, ?_⟩,
    ⟨"ID: " ++ p.ProductID ++ ", Name: " ++ p.ProductName ++ ", Brand: " ++
      p.ProductBrand ++ ", Color: ", ", Desc: " ++ p.Description, ?_⟩,
    ⟨"ID: " ++ p.ProductID ++ ", Name: " ++ p.ProductName ++ ", Brand: " ++
      p.ProductBrand ++ ", Color: " ++ p.PrimaryColor ++ ", Desc: ", "", ?_⟩⟩ <;>
    simp [productLine, String.append_assoc]

/-- C8 witness: the serialization facts instantiated on the one-product
catalog `[pTopA1]`. -/
theorem c8_witness :
    inventoryContext [pTopA1] =
        String.intercalate "\n" ([pTopA1].map productLine) ∧
      (∃ a b, productLine pTopA1 = a ++ (pTopA1.ProductID ++ b)) ∧
      productLine { pTopA1 with Price := 0, NumImages := 0 } =
        productLine pTopA1 ∧
      inventoryContext [] = "" :=
  have h := c8_inventory_serialization [pTopA1]
  ⟨h.1, (h.2.2.2.1 pTopA1 (by decide)).1, h.2.2.2.2 pTopA1 0 0, h.2.2.1⟩

/-- C3 counterexample: a raw response that is valid JSON but whose
`style_tags` field is a single string (outside the RawRecommendation schema)
is accepted: the pipeline stores it as the recommendation and sets no error,
because the source casts the parsed value without any shape check. -/
theorem c3_counterexample :
    matchesSchema badStyleTags = false ∧
      (runInvocation stateGarden (.text (some badStyleTags))).recommendation =
        some badStyleTags ∧
      (runInvocation stateGarden (.text (some badStyleTags))).error = none :=
  ⟨rfl, rfl, rfl⟩

/-- C3 (amended): the pipeline fails with the user-facing error state only
when `JSON.parse` throws on the response text; any successfully parsed JSON
value — whatever its shape, schema-conformant or not — is stored as the
recommendation with no error and no validation. -/
theorem c3_validation_amended (s : AppState) (j : Json)
    (hq : jsTrim s.query ≠ "") :
    (runInvocation s (.text (some j))).recommendation = some j ∧
      (runInvocation s (.text (some j))).error = none ∧
      (runInvocation s (.text none)).recommendation = none ∧
      (runInvocation s (.text none)).error = some aiErrorMessage := by
  refine ⟨?_, ?_, ?_, ?_⟩ <;>
    simp [runInvocation, handleStyleMeStart, handleStyleMeFinish, hq]

/-- C3 witness: the amended theorem applied to the state with query
`"party"` and the parsed value `Json.null`. -/
theorem c3_witness :
    jsTrim stateParty.query ≠ "" ∧
      ((runInvocation stateParty (.text (some Json.null))).recommendation =
          some Json.null ∧
        (runInvocation stateParty (.text (some Json.null))).error = none ∧
        (runInvocation stateParty (.text none)).recommendation = none ∧
        (runInvocation stateParty (.text none)).error = some aiErrorMessage) :=
  ⟨by decide, c3_validation_amended stateParty Json.null (by decide)⟩

/-- C5 counterexample: when the `generateContent` call succeeds but returns
no text, the `if (response.text)` block is skipped and the `catch` never
runs: the invocation completes with no error state and no recommendation —
no user-facing failure is surfaced, refuting the claim for the
returns-no-text case. -/
theorem c5_counterexample :
    (runInvocation statePartyNight .emptyText).error = none ∧
      (runInvocation statePartyNight .emptyText).recommendation = none ∧
      (runInvocation statePartyNight .emptyText).loading = false :=
  ⟨rfl, rfl, rfl⟩

/-- C5 (amended): an unreachable or rate-limited capability (a thrown call)
surfaces the single user-facing failure message with no recommendation, and
the query is indeed never retried automatically — one invocation issues
exactly one request and its completion issues none — but a successful
response carrying no text surfaces nothing: neither failure state nor
recommendation. -/
theorem c5_unavailable_amended (s : AppState) (hq : jsTrim s.query ≠ "") :
    (runInvocation s .thrown).error = some aiErrorMessage ∧
      (runInvocation s .thrown).recommendation = none ∧
      (runInvocation s .emptyText).error = none ∧
      (runInvocation s .emptyText).recommendation = none ∧
      (∀ o, (runInvocation s o).pending = s.pending) ∧
      (handleStyleMeStart s).pending = s.pending + 1 := by
  refine ⟨?_, ?_, ?_, ?_, ?_, ?_⟩
  · simp [runInvocation, handleStyleMeStart, handleStyleMeFinish, hq]
  · simp [runInvocation, handleStyleMeStart, handleStyleMeFinish, hq]
  · simp [runInvocation, handleStyleMeStart, handleStyleMeFinish, hq]
  · simp [runInvocation, handleStyleMeStart, handleStyleMeFinish, hq]
  · intro o
    cases o with
    | thrown => simp [runInvocation, handleStyleMeStart, handleStyleMeFinish, hq]
    | emptyText => simp [runInvocation, handleStyleMeStart, handleStyleMeFinish, hq]
    | text p =>
        cases p <;> simp [runInvocation, handleStyleMeStart, handleStyleMeFinish, hq]
  · simp [handleStyleMeStart, hq]

/-- C5 witness: the amended theorem applied to the state with query
`"gala"`, with the no-retry conjunct instantiated at the thrown outcome. -/
theorem c5_witness :
    jsTrim stateGala.query ≠ "" ∧
      (runInvocation stateGala .thrown).error = some aiErrorMessage ∧
      (runInvocation stateGala .thrown).pending = stateGala.pending ∧
      (handleStyleMeStart stateGala).pending = stateGala.pending + 1 :=
  have h := c5_unavailable_amended stateGala (by decide)
  ⟨by decide, h.1, h.2.2.2.2.1 .thrown, h.2.2.2.2.2⟩

/-- C6 counterexample: on a whitespace-only query, both the Enter key and
the button leave the state exactly as it was: no request is issued (pending
stays `0`) — that half of the claim holds — but no `EmptyQuery` failure
state is surfaced either: the error field stays `none`, refuting the claim's
failure-state half. -/
theorem c6_counterexample :
    stepEvent stateBlank3 .pressEnter = stateBlank3 ∧
      stepEvent stateBlank3 .clickStyleMe = stateBlank3 ∧
      (stepEvent stateBlank3 .pressEnter).error = none ∧
      (stepEvent stateBlank3 .pressEnter).pending = 0 :=
  ⟨rfl, rfl, rfl, rfl⟩

/-- C6 (amended): a blank or whitespace-only query is rejected before any
request is issued — the guard `if (!query.trim()) return;` makes both the
Enter key and the button a no-op, so no network call is made — but the
rejection is silent: the state, in particular the error field and the count
of outstanding requests, is left unchanged, and no user-facing failure state
is surfaced. -/
theorem c6_empty_query_amended (s : AppState) (hq : jsTrim s.query = "") :
    stepEvent s .pressEnter = s ∧ stepEvent s .clickStyleMe = s ∧
      (stepEvent s .pressEnter).error = s.error ∧
      (stepEvent s .pressEnter).pending = s.pending := by
  have hstart : handleStyleMeStart s = s := by
    unfold handleStyleMeStart
    rw [if_pos hq]
  have henter : stepEvent s .pressEnter = s := hstart
  have hclick : stepEvent s .clickStyleMe = s := by
    show (if s.loading = true ∨ s.query = "" then s else handleStyleMeStart s) = s
    split
    · rfl
    · exact hstart
  exact ⟨henter, hclick, by rw [henter], by rw [henter]⟩

/-- C6 witness: the amended theorem applied to the one-space query state. -/
theorem c6_witness :
    jsTrim stateBlank1.query = "" ∧
      (stepEvent stateBlank1 .pressEnter = stateBlank1 ∧
        stepEvent stateBlank1 .clickStyleMe = stateBlank1 ∧
        (stepEvent stateBlank1 .pressEnter).error = stateBlank1.error ∧
        (stepEvent stateBlank1 .pressEnter).pending = stateBlank1.pending) :=
  ⟨by decide, c6_empty_query_amended stateBlank1 (by decide)⟩

/-- C7 counterexample: from the initial state, type `"gala night"` and press
Enter — one request is outstanding and the busy flag is set — then press
Enter again: the Enter handler `onKeyDown={(e) => e.key === 'Enter' &&
handleStyleMe()}` is not gated by the busy flag, so a second invocation
starts and two requests are in flight, refuting ignored-while-busy and
at-most-one-in-flight. -/
theorem c7_counterexample :
    (stepEvent (stepEvent initialState (.setQuery "gala night"))
      .pressEnter).loading = true ∧
      (stepEvent (stepEvent initialState (.setQuery "gala night"))
        .pressEnter).pending = 1 ∧
      (stepEvent (stepEvent (stepEvent initialState (.setQuery "gala night"))
        .pressEnter) .pressEnter).pending = 2 :=
  ⟨rfl, rfl, rfl⟩

/-- C7 (amended): while a request is outstanding only button-initiated
invocations are ignored — the button is rendered disabled while `loading`,
so a click leaves the state unchanged, and nothing is queued — but
Enter-key invocations are not gated by the busy flag: pressing Enter with a
non-blank query while busy starts a second, overlapping invocation. -/
theorem c7_busy_flag_amended (s : AppState) (hl : s.loading = true) :
    stepEvent s .clickStyleMe = s ∧
      (jsTrim s.query ≠ "" →
        (stepEvent s .pressEnter).pending = s.pending + 1 ∧
          (stepEvent s .pressEnter).loading = true) := by
  constructor
  · show (if s.loading = true ∨ s.query = "" then s else handleStyleMeStart s) = s
    rw [if_pos (Or.inl hl)]
  · intro hq
    show (handleStyleMeStart s).pending = s.pending + 1 ∧
      (handleStyleMeStart s).loading = true
    unfold handleStyleMeStart
    rw [if_neg hq]
    exact ⟨rfl, rfl⟩

/-- C7 witness: the amended theorem applied to the busy state (query
`"gala"`, one request outstanding). -/
theorem c7_witness :
    busyState.loading = true ∧
      (stepEvent busyState .clickStyleMe = busyState ∧
        (jsTrim busyState.query ≠ "" →
          (stepEvent busyState .pressEnter).pending = busyState.pending + 1 ∧
            (stepEvent busyState .pressEnter).loading = true)) :=
  ⟨rfl, c7_busy_flag_amended busyState rfl⟩

/-- C10 counterexample: after the interleaved trace — two overlapping
invocations started by the ungated Enter key, the first completing with a
stored recommendation and the second throwing — both completed, yet the
error message and the recommendation are set simultaneously: the `catch` of
the second invocation sets the error without clearing the recommendation
stored by the first (clearing happens only at invocation start), refuting
the claimed mutual exclusion. -/
theorem c10_counterexample :
    interleavedTrace.error = some aiErrorMessage ∧
      interleavedTrace.recommendation = some Json.null ∧
      interleavedTrace.pending = 0 ∧
      interleavedTrace.loading = false :=
  ⟨rfl, rfl, rfl, rfl⟩

/-- C10 (amended): after a completed invocation that does not interleave
with another, the error message and the recommendation are mutually
exclusive: the start of the invocation clears both fields, an error outcome
sets only the message (the recommendation stays cleared), and a stored
recommendation leaves the error state null. -/
theorem c10_error_recommendation_exclusive (s : AppState) (o : GenOutcome)
    (hq : jsTrim s.query ≠ "") :
    ((runInvocation s o).error.isSome → (runInvocation s o).recommendation = none) ∧
      ((runInvocation s o).recommendation.isSome → (runInvocation s o).error = none) := by
  cases o with
  | thrown => simp [runInvocation, handleStyleMeStart, handleStyleMeFinish, hq]
  | emptyText => simp [runInvocation, handleStyleMeStart, handleStyleMeFinish, hq]
  | text p =>
      cases p <;> simp [runInvocation, handleStyleMeStart, handleStyleMeFinish, hq]

/-- C10 witness: the mutual-exclusion theorem applied to the state with
query `"brunch"` and a thrown request. -/
theorem c10_witness :
    jsTrim stateBrunch.query ≠ "" ∧
      (((runInvocation stateBrunch .thrown).error.isSome →
          (runInvocation stateBrunch .thrown).recommendation = none) ∧
        ((runInvocation stateBrunch .thrown).recommendation.isSome →
          (runInvocation stateBrunch .thrown).error = none)) :=
  ⟨by decide, c10_error_recommendation_exclusive stateBrunch .thrown (by decide)⟩

end LuxeMatch
